import Mathlib

/-!
Verification development for the project-flow backend: a shallow embedding of
the membership, issue-workflow and progress-aggregation core (FastAPI routers
and CRUD helpers), together with theorems settling the specification claims.

Conventions of the embedding:
* UUID values are modelled as natural-number identifiers.
* SQLAlchemy tables are lists of rows; queries with .first() take the head of
  the filtered list; committing a mutation of a fetched ORM row is modelled by
  rewriting the rows that carry that row's primary key.
* HTTPException is a status code plus a detail string; a handler returns
  Except HTTPException, where .error means the transaction was aborted and the
  store is unchanged.
* The email-to-user lookup (crud_user.get_user_by_email) is passed in as an
  already-resolved Option User argument, since no claim depends on it.
* Role-gate dependencies (require_role and require_issue_role) authorize the
  actor but do not alter state; where an actor's resolved role influences the
  handler body it is passed as an argument.
-/

namespace ProjectFlow

/-- Project-scoped roles, from app/db/models.py (ProjectRole). -/
inductive ProjectRole where
  | ADMIN
  | PROJECT_LEAD
  | MEMBER
deriving DecidableEq, Repr

/-- Issue lifecycle status, from app/db/models.py (IssueStatus). The API
schema alias TODO in app/schemas/base.py carries the same value TO_DO. -/
inductive IssueStatus where
  | PROPOSED
  | TO_DO
  | IN_PROGRESS
  | IN_REVIEW
  | DONE
deriving DecidableEq, Repr

/-- Issue type, from app/db/models.py (IssueType). -/
inductive IssueType where
  | TASK
  | BUG
  | STORY
  | EPIC
deriving DecidableEq, Repr

/-- Issue priority, from app/db/models.py (IssuePriority). -/
inductive IssuePriority where
  | LOWEST
  | LOW
  | MEDIUM
  | HIGH
  | HIGHEST
deriving DecidableEq, Repr

abbrev UserId := Nat
abbrev ProjectId := Nat
abbrev IssueId := Nat
abbrev PhaseId := Nat

/-- User row (app/db/models.py User), restricted to the fields the claims
touch; UUIDs are modelled as Nat identifiers. -/
structure User where
  id : UserId
  is_superuser : Bool
deriving DecidableEq, Repr

/-- Membership row (app/db/models.py ProjectMember): primary key is the
(user_id, project_id) pair. -/
structure ProjectMember where
  user_id : UserId
  project_id : ProjectId
  role : ProjectRole
deriving DecidableEq, Repr

/-- An HTTPException raised by a handler: status code and detail message. -/
structure HTTPException where
  statusCode : Nat
  detail : String
deriving DecidableEq, Repr

/-- Primary-key test for a membership row. -/
def memberKey (pid : ProjectId) (uid : UserId) (m : ProjectMember) : Bool :=
  m.project_id == pid && m.user_id == uid

/-- crud_member.get_project_member: first row matching (project_id, user_id). -/
def get_project_member (ms : List ProjectMember) (pid : ProjectId) (uid : UserId) :
    Option ProjectMember :=
  (ms.filter (memberKey pid uid)).head?

/-- crud_member.get_project_members: all rows of the project. -/
def get_project_members (ms : List ProjectMember) (pid : ProjectId) : List ProjectMember :=
  ms.filter (fun m => m.project_id == pid)

/-- crud_member.add_project_member: insert a new membership row. -/
def add_project_member (ms : List ProjectMember) (pid : ProjectId) (uid : UserId)
    (role : ProjectRole) : List ProjectMember :=
  ms ++ [⟨uid, pid, role⟩]

/-- Committing a role change of a fetched ORM row: the rows carrying the
row's (project, user) primary key take the new role. -/
def setRole (ms : List ProjectMember) (pid : ProjectId) (uid : UserId)
    (r : ProjectRole) : List ProjectMember :=
  ms.map (fun m => if memberKey pid uid m then { m with role := r } else m)

/-- The current PROJECT_LEAD row of a project, if any (query with .first()). -/
def firstLead (ms : List ProjectMember) (pid : ProjectId) : Option ProjectMember :=
  (ms.filter (fun m => m.project_id == pid && m.role == ProjectRole.PROJECT_LEAD)).head?

/-- crud_member.update_member_role: sets a member's role; if the new role is
PROJECT_LEAD, first demotes the existing lead (when it is a different user)
to MEMBER. Returns the store unchanged when the member does not exist. -/
def update_member_role (ms : List ProjectMember) (pid : ProjectId) (uid : UserId)
    (new_role : ProjectRole) : List ProjectMember :=
  match get_project_member ms pid uid with
  | none => ms
  | some _ =>
    let ms1 :=
      if new_role == ProjectRole.PROJECT_LEAD then
        match firstLead ms pid with
        | some lead =>
          if lead.user_id ≠ uid then setRole ms pid lead.user_id ProjectRole.MEMBER else ms
        | none => ms
      else ms
    setRole ms1 pid uid new_role

/-- crud_member.remove_project_member: delete the fetched row, if present. -/
def remove_project_member (ms : List ProjectMember) (pid : ProjectId) (uid : UserId) :
    List ProjectMember :=
  match get_project_member ms pid uid with
  | none => ms
  | some _ => ms.eraseP (memberKey pid uid)

/-- api/routers/members.py add_member_to_project. The actor's resolved role
(from the require_role dependency) and the resolved user lookup are passed
as arguments. -/
def add_member_to_project (ms : List ProjectMember) (project_id : ProjectId)
    (member_in_role : ProjectRole) (user_to_add : Option User)
    (actor_role : ProjectRole) : Except HTTPException (List ProjectMember) :=
  if actor_role == ProjectRole.PROJECT_LEAD && member_in_role == ProjectRole.PROJECT_LEAD then
    .error ⟨403, "Project Leads can only add new users as Members."⟩
  else
    match user_to_add with
    | none => .error ⟨404, "User with this email not found"⟩
    | some u =>
      if (get_project_member ms project_id u.id).isSome then
        .error ⟨400, "User is already a member of this project"⟩
      else
        let ms1 :=
          if member_in_role == ProjectRole.PROJECT_LEAD then
            match firstLead ms project_id with
            | some lead => setRole ms project_id lead.user_id ProjectRole.MEMBER
            | none => ms
          else ms
        .ok (add_project_member ms1 project_id u.id member_in_role)

/-- api/routers/members.py update_project_member_role (actor gate: ADMIN only;
the gate does not alter state). 404 from get_project_member_from_path; the
last-lead guard fires only for a demotion to MEMBER. -/
def update_project_member_role (ms : List ProjectMember) (project_id : ProjectId)
    (user_id : UserId) (new_role : ProjectRole) : Except HTTPException (List ProjectMember) :=
  match get_project_member ms project_id user_id with
  | none => .error ⟨404, "Project member not found"⟩
  | some mtu =>
    if mtu.role == ProjectRole.PROJECT_LEAD && new_role == ProjectRole.MEMBER &&
        ((get_project_members ms mtu.project_id).filter
          (fun m => m.role == ProjectRole.PROJECT_LEAD)).length == 1 then
      .error ⟨400, "Cannot demote the last Project Lead. Assign a new lead first."⟩
    else
      .ok (update_member_role ms mtu.project_id mtu.user_id new_role)

/-- api/routers/members.py remove_member_from_project (actor gate: ADMIN or
PROJECT_LEAD). The last-lead guard counts the project's lead rows only. -/
def remove_member_from_project (ms : List ProjectMember) (project_id : ProjectId)
    (user_id : UserId) : Except HTTPException (List ProjectMember) :=
  match get_project_member ms project_id user_id with
  | none => .error ⟨404, "Project member not found"⟩
  | some mtr =>
    if mtr.role == ProjectRole.PROJECT_LEAD &&
        ((get_project_members ms mtr.project_id).filter
          (fun m => m.role == ProjectRole.PROJECT_LEAD)).length == 1 then
      .error ⟨400, "Cannot remove the last Project Lead from a project. Assign a new lead first."⟩
    else
      .ok (remove_project_member ms mtr.project_id mtr.user_id)

/-- Number of PROJECT_LEAD membership rows of a project. -/
def leadCount (pid : ProjectId) (ms : List ProjectMember) : Nat :=
  ms.countP (fun m => m.project_id == pid && m.role == ProjectRole.PROJECT_LEAD)

/-- Number of rows carrying a given (project, user) primary key. -/
def keyCount (pid : ProjectId) (uid : UserId) (ms : List ProjectMember) : Nat :=
  ms.countP (memberKey pid uid)

/-- Database well-formedness: the (project, user) primary key is unique. -/
def MembersWF (ms : List ProjectMember) : Prop :=
  ∀ pid uid, keyCount pid uid ms ≤ 1

/-- Every project has at most one PROJECT_LEAD membership. -/
def AtMostOneLead (ms : List ProjectMember) : Prop :=
  ∀ pid, leadCount pid ms ≤ 1

/-- One successful invocation of an exposed membership operation. -/
inductive MemberStep : List ProjectMember → List ProjectMember → Prop where
  | add {ms ms' : List ProjectMember} (pid : ProjectId) (r : ProjectRole)
      (u : Option User) (ar : ProjectRole) :
      add_member_to_project ms pid r u ar = .ok ms' → MemberStep ms ms'
  | update {ms ms' : List ProjectMember} (pid : ProjectId) (uid : UserId) (r : ProjectRole) :
      update_project_member_role ms pid uid r = .ok ms' → MemberStep ms ms'
  | remove {ms ms' : List ProjectMember} (pid : ProjectId) (uid : UserId) :
      remove_member_from_project ms pid uid = .ok ms' → MemberStep ms ms'

/-- Issue row (app/db/models.py Issue, plus the phase_id column used by
app/crud/crud_issue.py); dates are modelled as opaque Nat values. -/
structure Issue where
  id : IssueId
  title : String
  description : Option String
  status : IssueStatus
  priority : IssuePriority
  issue_type : IssueType
  project_id : ProjectId
  reporter_id : UserId
  assignee_id : Option UserId
  assignee_request_id : Option UserId
  start_date : Option Nat
  due_date : Option Nat
  phase_id : Option PhaseId
deriving DecidableEq, Repr

/-- app/schemas/issue.py IssueCreate. -/
structure IssueCreate where
  title : String
  description : Option String
  project_id : ProjectId
  status : IssueStatus
  priority : IssuePriority
  issue_type : IssueType
  assignee_id : Option UserId
  start_date : Option Nat
  due_date : Option Nat
  phase_id : Option PhaseId
deriving DecidableEq, Repr

/-- app/schemas/issue.py IssueUpdate with pydantic exclude_unset semantics:
none means the field was not submitted and is left untouched. -/
structure IssueUpdate where
  title : Option String
  description : Option String
  status : Option IssueStatus
  priority : Option IssuePriority
  issue_type : Option IssueType
  assignee_id : Option UserId
  start_date : Option Nat
  due_date : Option Nat
  phase_id : Option PhaseId
deriving DecidableEq, Repr

/-- An IssueUpdate with every field left unset. -/
def emptyIssueUpdate : IssueUpdate :=
  ⟨none, none, none, none, none, none, none, none, none⟩

/-- app/api/routers/issues.py check_admin_assignment: raises only when the
acting user is a superuser and the submitted assignee id is that same user. -/
def check_admin_assignment (current_user : User) (issue_in_assignee_id : Option UserId) :
    Except HTTPException Unit :=
  if current_user.is_superuser && issue_in_assignee_id.isSome &&
      issue_in_assignee_id == some current_user.id then
    .error ⟨400, "Administrators cannot be assigned to issues."⟩
  else
    .ok ()

/-- crud_issue.get_issue: first row with the given id. -/
def get_issue (issues : List Issue) (issue_id : IssueId) : Option Issue :=
  (issues.filter (fun i => i.id == issue_id)).head?

/-- crud_issue.create_issue: build the row from the submitted fields (the
fresh primary key is passed in) and insert it; returns the new store and the
created row. -/
def create_issue (issues : List Issue) (issue_in : IssueCreate) (reporter_id : UserId)
    (new_id : IssueId) : List Issue × Issue :=
  let db_issue : Issue :=
    { id := new_id
      title := issue_in.title
      description := issue_in.description
      status := issue_in.status
      priority := issue_in.priority
      issue_type := issue_in.issue_type
      project_id := issue_in.project_id
      reporter_id := reporter_id
      assignee_id := issue_in.assignee_id
      assignee_request_id := none
      start_date := issue_in.start_date
      due_date := issue_in.due_date
      phase_id := issue_in.phase_id }
  (issues ++ [db_issue], db_issue)

/-- The per-row effect of crud_issue.update_issue: submitted fields replace
the stored ones, unset fields are skipped; assignee_request_id is not an
IssueUpdate field and is never touched. -/
def applyIssueUpdate (db_obj : Issue) (obj_in : IssueUpdate) : Issue :=
  { db_obj with
    title := obj_in.title.getD db_obj.title
    description := match obj_in.description with
      | some d => some d
      | none => db_obj.description
    status := obj_in.status.getD db_obj.status
    priority := obj_in.priority.getD db_obj.priority
    issue_type := obj_in.issue_type.getD db_obj.issue_type
    assignee_id := match obj_in.assignee_id with
      | some v => some v
      | none => db_obj.assignee_id
    start_date := match obj_in.start_date with
      | some v => some v
      | none => db_obj.start_date
    due_date := match obj_in.due_date with
      | some v => some v
      | none => db_obj.due_date
    phase_id := match obj_in.phase_id with
      | some v => some v
      | none => db_obj.phase_id }

/-- crud_issue.update_issue: mutate the fetched row and commit; returns the
new store and the updated row. -/
def update_issue (issues : List Issue) (db_obj : Issue) (obj_in : IssueUpdate) :
    List Issue × Issue :=
  let updated := applyIssueUpdate db_obj obj_in
  (issues.map (fun i => if i.id == db_obj.id then updated else i), updated)

/-- crud_issue.delete_issue: remove the first row with the given id. -/
def delete_issue (issues : List Issue) (issue_id : IssueId) : List Issue :=
  issues.eraseP (fun i => i.id == issue_id)

/-- crud_issue.request_issue: record the user as the pending requester. -/
def request_issue (issues : List Issue) (issue : Issue) (user : User) :
    List Issue × Issue :=
  let updated := { issue with assignee_request_id := some user.id }
  (issues.map (fun i => if i.id == issue.id then updated else i), updated)

/-- crud_issue.approve_request: when a request is pending, promote the
requester to assignee and clear the request. -/
def approve_request (issues : List Issue) (issue : Issue) : List Issue × Issue :=
  match issue.assignee_request_id with
  | some rid =>
    let updated := { issue with assignee_id := some rid, assignee_request_id := none }
    (issues.map (fun i => if i.id == issue.id then updated else i), updated)
  | none => (issues, issue)

/-- crud_issue.reject_request: clear the pending request field only. -/
def reject_request (issues : List Issue) (issue : Issue) : List Issue × Issue :=
  let updated := { issue with assignee_request_id := none }
  (issues.map (fun i => if i.id == issue.id then updated else i), updated)

/-- app/api/routers/issues.py create_new_issue. The store of membership rows
supplies the role resolution; the fresh issue id is passed in. -/
def create_new_issue (issues : List Issue) (members : List ProjectMember)
    (issue_in : IssueCreate) (current_user : User) (new_id : IssueId) :
    Except HTTPException (List Issue × Issue) :=
  match check_admin_assignment current_user issue_in.assignee_id with
  | .error e => .error e
  | .ok _ =>
    let proceed : ProjectRole → Except HTTPException (List Issue × Issue) := fun role =>
      if role == ProjectRole.MEMBER then
        if issue_in.issue_type == IssueType.STORY || issue_in.issue_type == IssueType.EPIC then
          .error ⟨403, "Members can only propose Tasks or Bugs."⟩
        else
          .ok (create_issue issues
            { issue_in with status := IssueStatus.PROPOSED, assignee_id := none }
            current_user.id new_id)
      else
        -- role is ADMIN or PROJECT_LEAD here (the enum has no other value)
        .ok (create_issue issues
          (if issue_in.status == IssueStatus.PROPOSED then
            { issue_in with status := IssueStatus.TO_DO }
          else issue_in)
          current_user.id new_id)
    match get_project_member members issue_in.project_id current_user.id with
    | none =>
      if current_user.is_superuser then proceed ProjectRole.ADMIN
      else .error ⟨403, "Not a member of this project"⟩
    | some mem =>
      proceed (if current_user.is_superuser then ProjectRole.ADMIN else mem.role)

/-- app/api/routers/issues.py update_existing_issue. -/
def update_existing_issue (issues : List Issue) (members : List ProjectMember)
    (issue_id : IssueId) (issue_in : IssueUpdate) (current_user : User) :
    Except HTTPException (List Issue × Issue) :=
  match get_issue issues issue_id with
  | none => .error ⟨404, "Issue not found"⟩
  | some issue =>
    match check_admin_assignment current_user issue_in.assignee_id with
    | .error e => .error e
    | .ok _ =>
      let mem := get_project_member members issue.project_id current_user.id
      let is_admin := current_user.is_superuser
      let is_lead := match mem with
        | some m => m.role == ProjectRole.PROJECT_LEAD
        | none => false
      let is_assignee := issue.assignee_id == some current_user.id
      if !(is_admin || is_lead || is_assignee) then
        .error ⟨403, "Not authorized to update this issue"⟩
      else if !(is_admin || is_lead) &&
          (issue_in.issue_type.isSome || issue_in.assignee_id.isSome) then
        .error ⟨403, "Only Admins or Project Leads can change issue type or assignee"⟩
      else
        .ok (update_issue issues issue issue_in)

/-- app/api/routers/issues.py approve_proposal (actor gate: ADMIN or
PROJECT_LEAD of the owning project; the gate does not alter state). -/
def approve_proposal (issues : List Issue) (issue_id : IssueId) :
    Except HTTPException (List Issue × Issue) :=
  match get_issue issues issue_id with
  | none => .error ⟨404, "Issue not found"⟩
  | some issue =>
    if issue.status ≠ IssueStatus.PROPOSED then
      .error ⟨400, "Issue is not in proposed state"⟩
    else
      .ok (update_issue issues issue { emptyIssueUpdate with status := some IssueStatus.TO_DO })

/-- app/api/routers/issues.py reject_proposal (actor gate as above). -/
def reject_proposal (issues : List Issue) (issue_id : IssueId) :
    Except HTTPException (List Issue) :=
  match get_issue issues issue_id with
  | none => .error ⟨404, "Issue not found"⟩
  | some issue =>
    if issue.status ≠ IssueStatus.PROPOSED then
      .error ⟨400, "Issue is not in proposed state"⟩
    else
      .ok (delete_issue issues issue_id)

/-- app/api/routers/issues.py request_assignment: only get_current_user is
required; no membership or role check is performed. -/
def request_assignment (issues : List Issue) (issue_id : IssueId) (current_user : User) :
    Except HTTPException (List Issue × Issue) :=
  match get_issue issues issue_id with
  | none => .error ⟨404, "Issue not found"⟩
  | some issue =>
    if issue.assignee_id.isSome then
      .error ⟨400, "Issue is already assigned"⟩
    else if issue.assignee_request_id.isSome then
      .error ⟨400, "An assignment request is already pending"⟩
    else
      .ok (request_issue issues issue current_user)

/-- app/api/routers/issues.py approve_assignment (actor gate: ADMIN or
PROJECT_LEAD of the owning project). -/
def approve_assignment (issues : List Issue) (issue_id : IssueId) :
    Except HTTPException (List Issue × Issue) :=
  match get_issue issues issue_id with
  | none => .error ⟨404, "Issue not found"⟩
  | some issue =>
    if issue.assignee_request_id.isNone then
      .error ⟨400, "No pending assignment request for this issue"⟩
    else
      .ok (approve_request issues issue)

/-- app/api/routers/issues.py reject_assignment (actor gate as above). -/
def reject_assignment (issues : List Issue) (issue_id : IssueId) :
    Except HTTPException (List Issue × Issue) :=
  match get_issue issues issue_id with
  | none => .error ⟨404, "Issue not found"⟩
  | some issue =>
    if issue.assignee_request_id.isNone then
      .error ⟨400, "No pending assignment request for this issue"⟩
    else
      .ok (reject_request issues issue)

/-- Modelled from the spec: the Phase status values (the Phase database model
is absent from src; only its CRUD helpers and progress consumers are
present). Spec section 3: status is one of not-started, IN_PROGRESS,
COMPLETED, and phases.py compares status against COMPLETED. -/
inductive PhaseStatus where
  | NOT_STARTED
  | IN_PROGRESS
  | COMPLETED
deriving DecidableEq, Repr

/-- Modelled from the spec: the Phase row (identity, owning project, order,
status), restricted to the fields the progress aggregator reads. -/
structure Phase where
  id : PhaseId
  project_id : ProjectId
  order : Nat
  status : PhaseStatus
deriving DecidableEq, Repr

/-- Python round() on rationals: round half to even. Floating-point values
are modelled as exact rationals; the floor is computed as num.fdiv den
(the denominator of a normalized rational is positive). -/
def pythonRound (q : ℚ) : ℤ :=
  let n : ℤ := q.num.fdiv q.den
  if q - n < 1 / 2 then n
  else if q - n > 1 / 2 then n + 1
  else if n % 2 = 0 then n else n + 1

/-- app/crud/crud_project.py calculate_phase_progress. -/
def calculate_phase_progress (phase : Phase) (all_project_issues : List Issue) : ℚ :=
  let issues_in_phase := all_project_issues.filter (fun i => i.phase_id == some phase.id)
  if issues_in_phase.length = 0 then
    if phase.status == PhaseStatus.COMPLETED then 100 else 0
  else
    (issues_in_phase.countP (fun i => i.status == IssueStatus.DONE) : ℚ)
      / (issues_in_phase.length : ℚ) * 100

/-- app/crud/crud_project.py calculate_project_progress_by_phases. -/
def calculate_project_progress_by_phases (project_phases : List Phase)
    (all_project_issues : List Issue) : ℚ :=
  if project_phases.isEmpty then
    let total_active_issues :=
      all_project_issues.countP (fun i => !(i.status == IssueStatus.PROPOSED))
    let done_issues := all_project_issues.countP (fun i => i.status == IssueStatus.DONE)
    if 0 < total_active_issues then
      (done_issues : ℚ) / (total_active_issues : ℚ) * 100
    else 0
  else
    let total_phases := project_phases.length
    let completed_phases_count := project_phases.countP
      (fun phase => decide (100 ≤ pythonRound (calculate_phase_progress phase all_project_issues)))
    if 0 < total_phases then
      (completed_phases_count : ℚ) / (total_phases : ℚ) * 100
    else 0

/-- C1 counterexample: a state reachable through the exposed membership
operations in which a project has two memberships but zero PROJECT_LEAD
memberships. An admin creates the lead (user 10) and a member (user 11),
then updates the sole lead's role to ADMIN: the last-lead guard only fires
for demotions to MEMBER, so the update succeeds and leaves no lead. -/
theorem C1_counterexample :
    add_member_to_project [] 1 ProjectRole.PROJECT_LEAD (some ⟨10, false⟩) ProjectRole.ADMIN
      = .ok [⟨10, 1, ProjectRole.PROJECT_LEAD⟩]
    ∧ add_member_to_project [⟨10, 1, ProjectRole.PROJECT_LEAD⟩] 1 ProjectRole.MEMBER
        (some ⟨11, false⟩) ProjectRole.ADMIN
      = .ok [⟨10, 1, ProjectRole.PROJECT_LEAD⟩, ⟨11, 1, ProjectRole.MEMBER⟩]
    ∧ update_project_member_role
        [⟨10, 1, ProjectRole.PROJECT_LEAD⟩, ⟨11, 1, ProjectRole.MEMBER⟩] 1 10 ProjectRole.ADMIN
      = .ok [⟨10, 1, ProjectRole.ADMIN⟩, ⟨11, 1, ProjectRole.MEMBER⟩]
    ∧ leadCount 1 [⟨10, 1, ProjectRole.ADMIN⟩, ⟨11, 1, ProjectRole.MEMBER⟩] = 0
    ∧ (get_project_members [⟨10, 1, ProjectRole.ADMIN⟩, ⟨11, 1, ProjectRole.MEMBER⟩] 1).length = 2 :=
  ⟨rfl, rfl, rfl, rfl, rfl⟩

/-- C4 counterexample: removing the sole PROJECT_LEAD of a project with no
other members is rejected, although the claim's rejection condition (lead
count would reach zero while other members remain) does not hold there. -/
theorem C4_counterexample :
    remove_member_from_project [⟨10, 1, ProjectRole.PROJECT_LEAD⟩] 1 10
      = .error ⟨400, "Cannot remove the last Project Lead from a project. Assign a new lead first."⟩
    ∧ (get_project_members [⟨10, 1, ProjectRole.PROJECT_LEAD⟩] 1).length = 1 :=
  ⟨rfl, rfl⟩

/-- C5: evaluation at the failing input. A PROJECT_LEAD actor adds a new
member with role ADMIN and the call succeeds, creating the ADMIN membership
row, although the handler's own docstring says Project Leads can only add
Members. -/
theorem C5_code_bug_eval :
    add_member_to_project [⟨2, 7, ProjectRole.PROJECT_LEAD⟩] 7 ProjectRole.ADMIN
      (some ⟨3, false⟩) ProjectRole.PROJECT_LEAD
      = .ok [⟨2, 7, ProjectRole.PROJECT_LEAD⟩, ⟨3, 7, ProjectRole.ADMIN⟩] :=
  rfl

/-- C2: evaluation at the failing input. User 1 is a superuser; the acting
user is the non-superuser project lead 2. Both creating an issue with
assignee_id 1 and updating an issue to assignee_id 1 succeed and persist the
superuser as assignee, although check_admin_assignment's docstring says it
prevents superusers from being assigned to any issue. -/
theorem C2_code_bug_eval :
    (User.mk 1 true).is_superuser = true
    ∧ (∃ out, create_new_issue [] [⟨2, 7, ProjectRole.PROJECT_LEAD⟩]
        ⟨"t", none, 7, IssueStatus.TO_DO, IssuePriority.MEDIUM, IssueType.TASK,
          some 1, none, none, none⟩
        ⟨2, false⟩ 100 = .ok out ∧ out.2.assignee_id = some 1)
    ∧ (∃ out, update_existing_issue
        [⟨1, "t", none, IssueStatus.TO_DO, IssuePriority.MEDIUM, IssueType.TASK,
          7, 5, none, none, none, none, none⟩]
        [⟨2, 7, ProjectRole.PROJECT_LEAD⟩] 1
        { emptyIssueUpdate with assignee_id := some 1 } ⟨2, false⟩ = .ok out
        ∧ out.2.assignee_id = some 1) :=
  ⟨rfl, ⟨_, rfl, rfl⟩, ⟨_, rfl, rfl⟩⟩

/-- C3 counterexample: user 9 files an assignment request on an unassigned
issue, then the project lead (user 2) sets assignee_id directly through
updateIssue; the stored issue ends with both assignee_id and
assignee_request_id set. -/
theorem C3_counterexample :
    ∃ out1 out2,
      request_assignment
        [⟨1, "t", none, IssueStatus.TO_DO, IssuePriority.MEDIUM, IssueType.TASK,
          7, 5, none, none, none, none, none⟩] 1 ⟨9, false⟩ = .ok out1
      ∧ update_existing_issue out1.1 [⟨2, 7, ProjectRole.PROJECT_LEAD⟩] 1
          { emptyIssueUpdate with assignee_id := some 3 } ⟨2, false⟩ = .ok out2
      ∧ out2.2.assignee_id = some 3
      ∧ out2.2.assignee_request_id = some 9
      ∧ get_issue out2.1 1 = some out2.2 :=
  ⟨_, _, rfl, rfl, rfl, rfl, rfl⟩

/-- C8 counterexample: on an issue where both assignee_id and
assignee_request_id are set (reachable, see the C3 counterexample),
reject_assignment succeeds and clears the request but leaves assignee_id
set, contradicting the claim that success leaves assignee_id null. -/
theorem C8_counterexample :
    ∃ out, reject_assignment
        [⟨1, "t", none, IssueStatus.TO_DO, IssuePriority.MEDIUM, IssueType.TASK,
          7, 5, some 5, some 9, none, none, none⟩] 1 = .ok out
      ∧ out.2.assignee_request_id = none
      ∧ out.2.assignee_id = some 5 :=
  ⟨_, rfl, rfl, rfl⟩

/-- Helper: the head of a filtered list satisfies the predicate and is a
member of the list. -/
theorem head?_filter_some {α : Type _} {p : α → Bool} {l : List α} {x : α}
    (h : (l.filter p).head? = some x) : p x = true ∧ x ∈ l := by
  induction l with
  | nil => simp at h
  | cons a as ih =>
    by_cases hp : p a
    · rw [List.filter_cons_of_pos hp] at h
      have ha : a = x := by simpa using h
      subst ha
      exact ⟨hp, List.mem_cons_self a as⟩
    · rw [List.filter_cons_of_neg hp] at h
      obtain ⟨h1, h2⟩ := ih h
      exact ⟨h1, List.mem_cons_of_mem a h2⟩

/-- Helper: rewriting a list elementwise preserves the head of the filtered
list when non-matching elements are untouched and the first match maps to a
still-matching element. -/
theorem head?_filter_map {α : Type _} {p : α → Bool} {f : α → α} {l : List α} {x y : α}
    (h : (l.filter p).head? = some x)
    (hskip : ∀ a, p a = false → f a = a)
    (hx : f x = y) (hy : p y = true) :
    ((l.map f).filter p).head? = some y := by
  induction l with
  | nil => simp at h
  | cons a as ih =>
    by_cases hp : p a
    · rw [List.filter_cons_of_pos hp] at h
      have ha : a = x := by simpa using h
      subst ha
      simp only [List.map_cons]
      rw [hx, List.filter_cons_of_pos hy]
      rfl
    · rw [List.filter_cons_of_neg hp] at h
      simp only [List.map_cons]
      rw [hskip a (by simpa using hp), List.filter_cons_of_neg hp]
      exact ih h

/-- Helper: a fetched issue carries the id it was fetched by. -/
theorem get_issue_eq_some {issues : List Issue} {issue_id : IssueId} {issue : Issue}
    (h : get_issue issues issue_id = some issue) : issue.id = issue_id ∧ issue ∈ issues := by
  obtain ⟨h1, h2⟩ := head?_filter_some h
  exact ⟨by simpa using h1, h2⟩

/-- Helper: after update_issue, fetching the same id returns the updated row. -/
theorem get_issue_update_issue {issues : List Issue} {issue_id : IssueId} {issue : Issue}
    (uIn : IssueUpdate) (h : get_issue issues issue_id = some issue) :
    get_issue (update_issue issues issue uIn).1 issue_id
      = some (applyIssueUpdate issue uIn) := by
  have hid : issue.id = issue_id := (get_issue_eq_some h).1
  unfold get_issue at h ⊢
  unfold update_issue
  refine head?_filter_map h (fun a ha => ?_) ?_ ?_
  · have : ¬ a.id = issue.id := by
      rw [hid]
      simpa using ha
    simp [this]
  · simp
  · show ((applyIssueUpdate issue uIn).id == issue_id) = true
    have : (applyIssueUpdate issue uIn).id = issue.id := rfl
    simp [this, hid]

/-- Helper: when issue ids are unique, a deleted issue can no longer be
fetched. -/
theorem get_issue_delete (issues : List Issue) (issue_id : IssueId)
    (hnd : (issues.map Issue.id).Nodup) :
    get_issue (delete_issue issues issue_id) issue_id = none := by
  induction issues with
  | nil => rfl
  | cons b bs ih =>
    simp only [List.map_cons, List.nodup_cons] at hnd
    obtain ⟨hb, hnd2⟩ := hnd
    by_cases hp : b.id = issue_id
    · unfold delete_issue get_issue
      rw [List.eraseP_cons_of_pos (by simpa using hp)]
      rw [List.head?_eq_none_iff, List.filter_eq_nil_iff]
      intro a ha hpa
      apply hb
      have haid : a.id = issue_id := by simpa using hpa
      rw [List.mem_map]
      exact ⟨a, ha, by rw [haid, hp]⟩
    · unfold delete_issue get_issue at ih ⊢
      rw [List.eraseP_cons_of_neg (by simpa using hp)]
      rw [List.filter_cons_of_neg (by simpa using hp)]
      exact ih hnd2

/-- C10: request_assignment performs no membership or superuser check: any
authenticated user, for any existing issue with no assignee and no pending
request, succeeds and is recorded as the pending requester. The user
argument is entirely unconstrained and the membership store is not even an
input of the operation. -/
theorem C10_no_membership_check (issues : List Issue) (issue_id : IssueId) (issue : Issue)
    (u : User) (h : get_issue issues issue_id = some issue)
    (ha : issue.assignee_id = none) (hr : issue.assignee_request_id = none) :
    request_assignment issues issue_id u = .ok (request_issue issues issue u)
    ∧ (request_issue issues issue u).2.assignee_request_id = some u.id := by
  constructor
  · simp [request_assignment, h, ha, hr]
  · rfl

/-- C7: approve_proposal moves a PROPOSED issue to TO_DO and fails with the
conflict error on every other status (a second approval therefore fails);
reject_proposal deletes a PROPOSED issue entirely and fails with the
conflict error on every other status. -/
theorem C7_proposal_workflow (issues : List Issue) (issue_id : IssueId) (issue : Issue)
    (h : get_issue issues issue_id = some issue) :
    (issue.status ≠ IssueStatus.PROPOSED →
      approve_proposal issues issue_id = .error ⟨400, "Issue is not in proposed state"⟩
      ∧ reject_proposal issues issue_id = .error ⟨400, "Issue is not in proposed state"⟩)
    ∧ (issue.status = IssueStatus.PROPOSED →
      ∃ out, approve_proposal issues issue_id = .ok out
        ∧ out.2 = { issue with status := IssueStatus.TO_DO }
        ∧ get_issue out.1 issue_id = some { issue with status := IssueStatus.TO_DO }
        ∧ approve_proposal out.1 issue_id = .error ⟨400, "Issue is not in proposed state"⟩)
    ∧ (issue.status = IssueStatus.PROPOSED →
      reject_proposal issues issue_id = .ok (delete_issue issues issue_id)
      ∧ ((issues.map Issue.id).Nodup →
          get_issue (delete_issue issues issue_id) issue_id = none)) := by
  refine ⟨fun hst => ⟨?_, ?_⟩, fun hst => ?_, fun hst => ⟨?_, fun hnd => get_issue_delete issues issue_id hnd⟩⟩
  · simp [approve_proposal, h, hst]
  · simp [reject_proposal, h, hst]
  · have hget : get_issue (update_issue issues issue
        { emptyIssueUpdate with status := some IssueStatus.TO_DO }).1 issue_id
        = some { issue with status := IssueStatus.TO_DO } :=
      get_issue_update_issue _ h
    refine ⟨update_issue issues issue { emptyIssueUpdate with status := some IssueStatus.TO_DO },
      ?_, rfl, hget, ?_⟩
    · simp [approve_proposal, h, hst]
    · simp [approve_proposal, hget]
  · simp [reject_proposal, h, hst]

/-- C8 amended: postconditions of the assignment-request workflow. request
fails with the conflict error when an assignee or a pending request exists
and otherwise records the requester; approve fails with the conflict error
without a pending request and otherwise promotes the requester to assignee,
clearing the request; reject fails with the conflict error without a
pending request and otherwise clears the request, leaving assignee_id
unchanged (not necessarily null). -/
theorem C8_amended (issues : List Issue) (issue_id : IssueId) (issue : Issue) (u : User)
    (h : get_issue issues issue_id = some issue) :
    (issue.assignee_id.isSome →
      request_assignment issues issue_id u = .error ⟨400, "Issue is already assigned"⟩)
    ∧ (issue.assignee_id = none → issue.assignee_request_id.isSome →
      request_assignment issues issue_id u
        = .error ⟨400, "An assignment request is already pending"⟩)
    ∧ (issue.assignee_id = none → issue.assignee_request_id = none →
      ∃ out, request_assignment issues issue_id u = .ok out
        ∧ out.2 = { issue with assignee_request_id := some u.id })
    ∧ (issue.assignee_request_id = none →
      approve_assignment issues issue_id
        = .error ⟨400, "No pending assignment request for this issue"⟩)
    ∧ (∀ rid, issue.assignee_request_id = some rid →
      ∃ out, approve_assignment issues issue_id = .ok out
        ∧ out.2 = { issue with assignee_id := some rid, assignee_request_id := none })
    ∧ (issue.assignee_request_id = none →
      reject_assignment issues issue_id
        = .error ⟨400, "No pending assignment request for this issue"⟩)
    ∧ (∀ rid, issue.assignee_request_id = some rid →
      ∃ out, reject_assignment issues issue_id = .ok out
        ∧ out.2 = { issue with assignee_request_id := none }
        ∧ out.2.assignee_id = issue.assignee_id) := by
  refine ⟨?_, ?_, ?_, ?_, ?_, ?_, ?_⟩
  · intro hs
    simp [request_assignment, h, hs]
  · intro ha hr
    simp [request_assignment, h, ha, hr]
  · intro ha hr
    exact ⟨request_issue issues issue u, by simp [request_assignment, h, ha, hr], rfl⟩
  · intro hr
    simp [approve_assignment, h, hr]
  · intro rid hr
    refine ⟨approve_request issues issue, by simp [approve_assignment, h, hr], ?_⟩
    simp [approve_request, hr]
  · intro hr
    simp [reject_assignment, h, hr]
  · intro rid hr
    exact ⟨reject_request issues issue, by simp [reject_assignment, h, hr], rfl, rfl⟩

/-- Mutual exclusivity of direct assignment and a pending request. -/
def MutexIssue (i : Issue) : Prop :=
  i.assignee_id = none ∨ i.assignee_request_id = none

/-- C3 amended: issue creation and the assignment-request operations only
produce issues in which assignee_id and assignee_request_id are not both
set, and approve_proposal preserves that exclusivity; updateIssue is the
exception and can set assignee_id while a request is pending (see the
counterexample). -/
theorem C3_amended (issues : List Issue) (issue_id : IssueId) (u : User)
    (members : List ProjectMember) (issue_in : IssueCreate) (new_id : IssueId) :
    (∀ out, request_assignment issues issue_id u = .ok out → MutexIssue out.2)
    ∧ (∀ out, approve_assignment issues issue_id = .ok out → MutexIssue out.2)
    ∧ (∀ out, reject_assignment issues issue_id = .ok out → MutexIssue out.2)
    ∧ (∀ out, create_new_issue issues members issue_in u new_id = .ok out → MutexIssue out.2)
    ∧ (∀ issue out, get_issue issues issue_id = some issue → MutexIssue issue →
        approve_proposal issues issue_id = .ok out → MutexIssue out.2) := by
  refine ⟨?_, ?_, ?_, ?_, ?_⟩
  · intro out hout
    unfold request_assignment at hout
    cases hg : get_issue issues issue_id with
    | none => simp [hg] at hout
    | some issue =>
      rw [hg] at hout
      by_cases ha : issue.assignee_id.isSome
      · simp [ha] at hout
      · by_cases hr : issue.assignee_request_id.isSome
        · simp [ha, hr] at hout
        · simp [ha, hr] at hout
          left
          rw [← hout]
          show (request_issue issues issue u).2.assignee_id = none
          simpa [request_issue] using Option.not_isSome_iff_eq_none.mp ha
  · intro out hout
    unfold approve_assignment at hout
    cases hg : get_issue issues issue_id with
    | none => simp [hg] at hout
    | some issue =>
      rw [hg] at hout
      cases hr : issue.assignee_request_id with
      | none => simp [hr] at hout
      | some rid =>
        simp [hr, approve_request] at hout
        right
        rw [← hout]
  · intro out hout
    unfold reject_assignment at hout
    cases hg : get_issue issues issue_id with
    | none => simp [hg] at hout
    | some issue =>
      rw [hg] at hout
      cases hr : issue.assignee_request_id with
      | none => simp [hr] at hout
      | some rid =>
        simp [hr, reject_request] at hout
        right
        rw [← hout]
  · intro out hout
    show out.2.assignee_id = none ∨ out.2.assignee_request_id = none
    right
    unfold create_new_issue at hout
    cases hc : check_admin_assignment u issue_in.assignee_id with
    | error e =>
      rw [hc] at hout
      exact absurd hout (by simp)
    | ok v =>
      rw [hc] at hout
      simp only at hout
      rcases hm : get_project_member members issue_in.project_id u.id with _ | mem <;>
        rw [hm] at hout <;>
        simp only at hout <;>
        (repeat' split at hout) <;>
        first
          | (rw [Except.ok.injEq] at hout
             rw [← hout]
             try rfl)
          | simp at hout
  · intro issue out hg hmx hout
    unfold approve_proposal at hout
    rw [hg] at hout
    by_cases hst : issue.status = IssueStatus.PROPOSED
    · simp [hst] at hout
      rcases hmx with hmx | hmx
      · left
        rw [← hout]
        show (applyIssueUpdate issue { emptyIssueUpdate with status := some IssueStatus.TO_DO }).assignee_id = none
        simpa [applyIssueUpdate, emptyIssueUpdate] using hmx
      · right
        rw [← hout]
        show (applyIssueUpdate issue { emptyIssueUpdate with status := some IssueStatus.TO_DO }).assignee_request_id = none
        simpa [applyIssueUpdate, emptyIssueUpdate] using hmx
    · simp [hst] at hout

/-- C6: creation policy as a function of the resolved role (ADMIN when the
user is a superuser, else the membership role). A MEMBER may only create
TASK or BUG issues, STORY and EPIC fail with Forbidden, and a successful
creation is forced to status PROPOSED with a null assignee; a PROJECT_LEAD
or ADMIN may create any type, a submitted PROPOSED status is stored as
TO_DO, and any other submitted status and the submitted assignee are stored
as given. -/
theorem C6_creation_policy (issues : List Issue) (members : List ProjectMember)
    (issue_in : IssueCreate) (u : User) (mem : ProjectMember) (new_id : IssueId)
    (hmem : get_project_member members issue_in.project_id u.id = some mem)
    (hchk : check_admin_assignment u issue_in.assignee_id = .ok ()) :
    ((if u.is_superuser then ProjectRole.ADMIN else mem.role) = ProjectRole.MEMBER →
      ((issue_in.issue_type = IssueType.STORY ∨ issue_in.issue_type = IssueType.EPIC) →
        create_new_issue issues members issue_in u new_id
          = .error ⟨403, "Members can only propose Tasks or Bugs."⟩)
      ∧ (issue_in.issue_type ≠ IssueType.STORY → issue_in.issue_type ≠ IssueType.EPIC →
        ∃ out, create_new_issue issues members issue_in u new_id = .ok out
          ∧ out.2.status = IssueStatus.PROPOSED
          ∧ out.2.assignee_id = none
          ∧ out.2.issue_type = issue_in.issue_type))
    ∧ ((if u.is_superuser then ProjectRole.ADMIN else mem.role) = ProjectRole.ADMIN
        ∨ (if u.is_superuser then ProjectRole.ADMIN else mem.role) = ProjectRole.PROJECT_LEAD →
      ∃ out, create_new_issue issues members issue_in u new_id = .ok out
        ∧ out.2.status
            = (if issue_in.status = IssueStatus.PROPOSED then IssueStatus.TO_DO
               else issue_in.status)
        ∧ out.2.assignee_id = issue_in.assignee_id
        ∧ out.2.issue_type = issue_in.issue_type) := by
  cases hsup : u.is_superuser with
  | true =>
    constructor
    · intro hr
      simp [hsup] at hr
    · intro _
      refine ⟨create_issue issues
          (if issue_in.status == IssueStatus.PROPOSED then
            { issue_in with status := IssueStatus.TO_DO }
          else issue_in) u.id new_id, ?_, ?_, ?_, ?_⟩
      · simp [create_new_issue, hchk, hmem, hsup]
      · by_cases hst : issue_in.status = IssueStatus.PROPOSED <;>
          simp [hst, create_issue]
      · by_cases hst : issue_in.status = IssueStatus.PROPOSED <;>
          simp [hst, create_issue]
      · by_cases hst : issue_in.status = IssueStatus.PROPOSED <;>
          simp [hst, create_issue]
  | false =>
    constructor
    · intro hr
      simp at hr
      constructor
      · intro hty
        rcases hty with hty | hty <;>
          simp [create_new_issue, hchk, hmem, hsup, hr, hty]
      · intro h1 h2
        refine ⟨create_issue issues
            { issue_in with status := IssueStatus.PROPOSED, assignee_id := none }
            u.id new_id, ?_, rfl, rfl, rfl⟩
        simp [create_new_issue, hchk, hmem, hsup, hr, h1, h2]
    · intro hr
      simp at hr
      refine ⟨create_issue issues
          (if issue_in.status == IssueStatus.PROPOSED then
            { issue_in with status := IssueStatus.TO_DO }
          else issue_in) u.id new_id, ?_, ?_, ?_, ?_⟩
      · rcases hr with hr | hr <;>
          simp [create_new_issue, hchk, hmem, hsup, hr]
      · by_cases hst : issue_in.status = IssueStatus.PROPOSED <;>
          simp [hst, create_issue]
      · by_cases hst : issue_in.status = IssueStatus.PROPOSED <;>
          simp [hst, create_issue]
      · by_cases hst : issue_in.status = IssueStatus.PROPOSED <;>
          simp [hst, create_issue]

/-- C4 amended: removal (and demotion to MEMBER) of a member is rejected
with the conflict error exactly when the target currently holds the
PROJECT_LEAD role and the project has exactly one lead membership,
regardless of whether other members remain; in every other case (in
particular once another lead exists, or once the target has been demoted by
assigning a new lead) the operation succeeds. -/
theorem C4_amended (ms : List ProjectMember) (pid : ProjectId) (uid : UserId)
    (m : ProjectMember) (h : get_project_member ms pid uid = some m) :
    (m.role = ProjectRole.PROJECT_LEAD ∧
        ((get_project_members ms m.project_id).filter
          (fun x => x.role == ProjectRole.PROJECT_LEAD)).length = 1 →
      remove_member_from_project ms pid uid
        = .error ⟨400, "Cannot remove the last Project Lead from a project. Assign a new lead first."⟩
      ∧ update_project_member_role ms pid uid ProjectRole.MEMBER
        = .error ⟨400, "Cannot demote the last Project Lead. Assign a new lead first."⟩)
    ∧ (¬(m.role = ProjectRole.PROJECT_LEAD ∧
        ((get_project_members ms m.project_id).filter
          (fun x => x.role == ProjectRole.PROJECT_LEAD)).length = 1) →
      remove_member_from_project ms pid uid
        = .ok (remove_project_member ms m.project_id m.user_id)
      ∧ update_project_member_role ms pid uid ProjectRole.MEMBER
        = .ok (update_member_role ms m.project_id m.user_id ProjectRole.MEMBER)) := by
  constructor
  · rintro ⟨hrole, hlen⟩
    exact ⟨by simp [remove_member_from_project, h, hrole, hlen],
           by simp [update_project_member_role, h, hrole, hlen]⟩
  · intro hn
    by_cases hrole : m.role = ProjectRole.PROJECT_LEAD
    · have hlen : ((get_project_members ms m.project_id).filter
          (fun x => x.role == ProjectRole.PROJECT_LEAD)).length ≠ 1 :=
        fun hl => hn ⟨hrole, hl⟩
      exact ⟨by simp [remove_member_from_project, h, hrole, hlen],
             by simp [update_project_member_role, h, hrole, hlen]⟩
    · exact ⟨by simp [remove_member_from_project, h, hrole],
             by simp [update_project_member_role, h, hrole]⟩


/-- Helper: Python round of the exact value 100 is 100. -/
theorem pythonRound_hundred : pythonRound 100 = 100 := by
  norm_num [pythonRound]

/-- Helper: Python round of the exact value 0 is 0. -/
theorem pythonRound_zero : pythonRound 0 = 0 := by
  norm_num [pythonRound]

/-- Helper: phase progress of a phase with at least one issue. -/
theorem calculate_phase_progress_pos (phase : Phase) (issues : List Issue)
    (h : (issues.filter (fun i => i.phase_id == some phase.id)).length ≠ 0) :
    calculate_phase_progress phase issues
      = ((issues.filter (fun i => i.phase_id == some phase.id)).countP
          (fun i => i.status == IssueStatus.DONE) : ℚ)
        / ((issues.filter (fun i => i.phase_id == some phase.id)).length : ℚ) * 100 := by
  simp [calculate_phase_progress, h]

/-- Helper: project progress of a project with phases. -/
theorem calculate_project_progress_phases_formula (phases : List Phase)
    (issues : List Issue) (h : phases ≠ []) :
    calculate_project_progress_by_phases phases issues
      = ((phases.countP (fun ph =>
          decide (100 ≤ pythonRound (calculate_phase_progress ph issues)))) : ℚ)
        / (phases.length : ℚ) * 100 := by
  have hpos : 0 < phases.length := List.length_pos.mpr h
  simp [calculate_project_progress_by_phases, h, hpos]

/-- Helper: fallback project progress for a project without phases. -/
theorem calculate_project_progress_fallback (issues : List Issue)
    (h : issues.countP (fun i => !(i.status == IssueStatus.PROPOSED)) ≠ 0) :
    calculate_project_progress_by_phases [] issues
      = (issues.countP (fun i => i.status == IssueStatus.DONE) : ℚ)
        / (issues.countP (fun i => !(i.status == IssueStatus.PROPOSED)) : ℚ) * 100 := by
  have hpos := Nat.pos_of_ne_zero h
  simp [calculate_project_progress_by_phases, hpos]

/-- Example phase 1 of the specification's progress scenario. -/
def exPhase1 : Phase := ⟨1, 1, 1, PhaseStatus.IN_PROGRESS⟩

/-- Example phase 2 of the specification's progress scenario. -/
def exPhase2 : Phase := ⟨2, 1, 2, PhaseStatus.NOT_STARTED⟩

/-- Example issues: three DONE issues in phase 1, one TO_DO issue in
phase 2. -/
def exIssuesPhases : List Issue :=
  [⟨11, "a", none, IssueStatus.DONE, IssuePriority.MEDIUM, IssueType.TASK, 1, 5,
      none, none, none, none, some 1⟩,
    ⟨12, "b", none, IssueStatus.DONE, IssuePriority.MEDIUM, IssueType.TASK, 1, 5,
      none, none, none, none, some 1⟩,
    ⟨13, "c", none, IssueStatus.DONE, IssuePriority.MEDIUM, IssueType.TASK, 1, 5,
      none, none, none, none, some 1⟩,
    ⟨14, "d", none, IssueStatus.TO_DO, IssuePriority.MEDIUM, IssueType.TASK, 1, 5,
      none, none, none, none, some 2⟩]

/-- Example issues for the phase-less fallback: four non-PROPOSED issues of
which one is DONE, plus one PROPOSED issue that must be excluded. -/
def exIssuesNoPhases : List Issue :=
  [⟨21, "a", none, IssueStatus.DONE, IssuePriority.MEDIUM, IssueType.TASK, 1, 5,
      none, none, none, none, none⟩,
    ⟨22, "b", none, IssueStatus.TO_DO, IssuePriority.MEDIUM, IssueType.TASK, 1, 5,
      none, none, none, none, none⟩,
    ⟨23, "c", none, IssueStatus.TO_DO, IssuePriority.MEDIUM, IssueType.TASK, 1, 5,
      none, none, none, none, none⟩,
    ⟨24, "d", none, IssueStatus.TO_DO, IssuePriority.MEDIUM, IssueType.TASK, 1, 5,
      none, none, none, none, none⟩,
    ⟨25, "e", none, IssueStatus.PROPOSED, IssuePriority.MEDIUM, IssueType.TASK, 1, 5,
      none, none, none, none, none⟩]

/-- Helper: phase 1 of the example is fully done, progress 100. -/
theorem exPhase1_progress : calculate_phase_progress exPhase1 exIssuesPhases = 100 := by
  rw [calculate_phase_progress_pos exPhase1 exIssuesPhases (by decide)]
  have e1 : (exIssuesPhases.filter (fun i => i.phase_id == some exPhase1.id)).countP
      (fun i => i.status == IssueStatus.DONE) = 3 := by decide
  have e2 : (exIssuesPhases.filter (fun i => i.phase_id == some exPhase1.id)).length = 3 := by
    decide
  rw [e1, e2]
  norm_num

/-- Helper: phase 2 of the example has one open issue, progress 0. -/
theorem exPhase2_progress : calculate_phase_progress exPhase2 exIssuesPhases = 0 := by
  rw [calculate_phase_progress_pos exPhase2 exIssuesPhases (by decide)]
  have e1 : (exIssuesPhases.filter (fun i => i.phase_id == some exPhase2.id)).countP
      (fun i => i.status == IssueStatus.DONE) = 0 := by decide
  have e2 : (exIssuesPhases.filter (fun i => i.phase_id == some exPhase2.id)).length = 1 := by
    decide
  rw [e1, e2]
  norm_num

/-- C9: the progress aggregation formulas: an issue-less phase reports 100
exactly when marked COMPLETED and 0 otherwise, a phase with issues reports
done/total*100, a project with phases reports the share of phases whose
rounded progress reaches 100, a phase-less project falls back to
done/non-PROPOSED*100 with 0 for an empty denominator; and the two worked
examples of the specification evaluate to 50 and 25. -/
theorem C9_progress (phase : Phase) (phases : List Phase) (issues : List Issue) :
    ((issues.filter (fun i => i.phase_id == some phase.id)).length = 0 →
      calculate_phase_progress phase issues
        = if phase.status = PhaseStatus.COMPLETED then 100 else 0)
    ∧ ((issues.filter (fun i => i.phase_id == some phase.id)).length ≠ 0 →
      calculate_phase_progress phase issues
        = ((issues.filter (fun i => i.phase_id == some phase.id)).countP
            (fun i => i.status == IssueStatus.DONE) : ℚ)
          / ((issues.filter (fun i => i.phase_id == some phase.id)).length : ℚ) * 100)
    ∧ (phases ≠ [] →
      calculate_project_progress_by_phases phases issues
        = ((phases.countP (fun ph =>
            decide (100 ≤ pythonRound (calculate_phase_progress ph issues)))) : ℚ)
          / (phases.length : ℚ) * 100)
    ∧ (issues.countP (fun i => !(i.status == IssueStatus.PROPOSED)) ≠ 0 →
      calculate_project_progress_by_phases [] issues
        = (issues.countP (fun i => i.status == IssueStatus.DONE) : ℚ)
          / (issues.countP (fun i => !(i.status == IssueStatus.PROPOSED)) : ℚ) * 100)
    ∧ (issues.countP (fun i => !(i.status == IssueStatus.PROPOSED)) = 0 →
      calculate_project_progress_by_phases [] issues = 0)
    ∧ calculate_project_progress_by_phases [exPhase1, exPhase2] exIssuesPhases = 50
    ∧ calculate_project_progress_by_phases [] exIssuesNoPhases = 25 := by
  refine ⟨?_, ?_, ?_, ?_, ?_, ?_, ?_⟩
  · intro hlen
    by_cases hc : phase.status = PhaseStatus.COMPLETED <;>
      simp [calculate_phase_progress, hlen, hc]
  · exact calculate_phase_progress_pos phase issues
  · exact calculate_project_progress_phases_formula phases issues
  · exact calculate_project_progress_fallback issues
  · intro hz
    simp [calculate_project_progress_by_phases, hz]
  · rw [calculate_project_progress_phases_formula [exPhase1, exPhase2] exIssuesPhases
      (by simp)]
    have hc : List.countP (fun ph =>
        decide (100 ≤ pythonRound (calculate_phase_progress ph exIssuesPhases)))
        [exPhase1, exPhase2] = 1 := by
      simp [List.countP_cons, exPhase1_progress, exPhase2_progress,
        pythonRound_hundred, pythonRound_zero]
    rw [hc]
    have hl : ([exPhase1, exPhase2] : List Phase).length = 2 := rfl
    rw [hl]
    norm_num
  · rw [calculate_project_progress_fallback exIssuesNoPhases (by decide)]
    have e1 : exIssuesNoPhases.countP (fun i => i.status == IssueStatus.DONE) = 1 := by
      decide
    have e2 : exIssuesNoPhases.countP (fun i => !(i.status == IssueStatus.PROPOSED)) = 4 := by
      decide
    rw [e1, e2]
    norm_num

/-- Helper: the head of a list is a member. -/
theorem head?_some_mem {α : Type _} {l : List α} {x : α} (h : l.head? = some x) : x ∈ l := by
  cases l with
  | nil => simp at h
  | cons a as =>
    have ha : a = x := by simpa using h
    subst ha
    exact List.mem_cons_self a as

/-- Helper: a list of length at most one has at most one element. -/
theorem length_le_one_subsingleton {α : Type _} {l : List α} (h : l.length ≤ 1)
    {a b : α} (ha : a ∈ l) (hb : b ∈ l) : a = b := by
  cases l with
  | nil => simp at ha
  | cons x xs =>
    cases xs with
    | nil =>
      simp at ha hb
      rw [ha, hb]
    | cons y ys => simp at h

/-- Helper: countP of a pointwise disjunction is at most the sum of the
counts. -/
theorem countP_or_le {α : Type _} (p q : α → Bool) (l : List α) :
    l.countP (fun a => p a || q a) ≤ l.countP p + l.countP q := by
  induction l with
  | nil => simp
  | cons a as ih =>
    by_cases hp : p a <;> by_cases hq : q a <;>
      simp [List.countP_cons, hp, hq] <;> omega

/-- Helper: erasing rows never increases a count. -/
theorem countP_eraseP_le {α : Type _} (p q : α → Bool) (l : List α) :
    (l.eraseP q).countP p ≤ l.countP p :=
  (List.eraseP_sublist l).countP_le p

/-- Helper: setRole does not change which rows carry a given key. -/
theorem keyCount_setRole (ms : List ProjectMember) (pid : ProjectId) (uid : UserId)
    (r : ProjectRole) (pid2 : ProjectId) (uid2 : UserId) :
    keyCount pid2 uid2 (setRole ms pid uid r) = keyCount pid2 uid2 ms := by
  unfold keyCount setRole
  rw [List.countP_map]
  apply List.countP_congr
  intro m hm
  simp only [Function.comp]
  by_cases hk : memberKey pid uid m
  · rw [if_pos hk]
    exact Iff.rfl
  · rw [if_neg hk]

/-- Helper: setRole on one project leaves the lead counts of all other
projects unchanged. -/
theorem leadCount_setRole_other (ms : List ProjectMember) (pid : ProjectId) (uid : UserId)
    (r : ProjectRole) (pid2 : ProjectId) (hne : pid2 ≠ pid) :
    leadCount pid2 (setRole ms pid uid r) = leadCount pid2 ms := by
  unfold leadCount setRole
  rw [List.countP_map]
  apply List.countP_congr
  intro m hm
  simp only [Function.comp]
  by_cases hk : memberKey pid uid m
  · rw [if_pos hk]
    have hk2 : m.project_id = pid ∧ m.user_id = uid := by simpa [memberKey] using hk
    have hne2 : pid ≠ pid2 := Ne.symm hne
    simp [hk2.1, hne2]
  · rw [if_neg hk]

/-- Helper: setting a role other than PROJECT_LEAD never increases a lead
count. -/
theorem leadCount_setRole_le (ms : List ProjectMember) (pid : ProjectId) (uid : UserId)
    (r : ProjectRole) (hr : r ≠ ProjectRole.PROJECT_LEAD) (pid2 : ProjectId) :
    leadCount pid2 (setRole ms pid uid r) ≤ leadCount pid2 ms := by
  unfold leadCount setRole
  rw [List.countP_map]
  apply List.countP_mono_left
  intro m hm hpm
  simp only [Function.comp] at hpm
  by_cases hk : memberKey pid uid m
  · rw [if_pos hk] at hpm
    exfalso
    simp [hr] at hpm
  · rwa [if_neg hk] at hpm

/-- Helper: a none firstLead means the project has no lead rows. -/
theorem leadCount_eq_zero_of_firstLead_none (ms : List ProjectMember) (pid : ProjectId)
    (h : firstLead ms pid = none) : leadCount pid ms = 0 := by
  unfold firstLead at h
  rw [List.head?_eq_none_iff] at h
  unfold leadCount
  rw [List.countP_eq_length_filter, h]
  rfl

/-- Helper: an absent key means no row carries it. -/
theorem keyCount_eq_zero_of_get_none (ms : List ProjectMember) (pid : ProjectId)
    (uid : UserId) (h : get_project_member ms pid uid = none) :
    keyCount pid uid ms = 0 := by
  unfold get_project_member at h
  rw [List.head?_eq_none_iff] at h
  unfold keyCount
  rw [List.countP_eq_length_filter, h]
  rfl

/-- Helper: a fetched member carries the searched key and is a row of the
store. -/
theorem get_project_member_some (ms : List ProjectMember) (pid : ProjectId) (uid : UserId)
    (m : ProjectMember) (h : get_project_member ms pid uid = some m) :
    m.project_id = pid ∧ m.user_id = uid ∧ m ∈ ms := by
  unfold get_project_member at h
  obtain ⟨h1, h2⟩ := head?_filter_some h
  unfold memberKey at h1
  simp at h1
  exact ⟨h1.1, h1.2, h2⟩

/-- Helper: with at most one lead, every lead row of the project equals the
first lead. -/
theorem lead_unique (ms : List ProjectMember) (pid : ProjectId) (lead : ProjectMember)
    (hfl : firstLead ms pid = some lead) (hle : leadCount pid ms ≤ 1)
    (m : ProjectMember) (hm : m ∈ ms)
    (hpred : (m.project_id == pid && m.role == ProjectRole.PROJECT_LEAD) = true) :
    m = lead := by
  unfold firstLead at hfl
  have hlead_mem := head?_some_mem hfl
  have hm_mem : m ∈ ms.filter
      (fun x => x.project_id == pid && x.role == ProjectRole.PROJECT_LEAD) :=
    List.mem_filter.mpr ⟨hm, hpred⟩
  have hlen : (ms.filter
      (fun x => x.project_id == pid && x.role == ProjectRole.PROJECT_LEAD)).length ≤ 1 := by
    unfold leadCount at hle
    rwa [List.countP_eq_length_filter] at hle
  exact length_le_one_subsingleton hlen hm_mem hlead_mem

/-- Helper: demoting the unique lead leaves the project with no lead rows. -/
theorem leadCount_demote_zero (ms : List ProjectMember) (pid : ProjectId)
    (lead : ProjectMember) (hfl : firstLead ms pid = some lead)
    (hle : leadCount pid ms ≤ 1) :
    leadCount pid (setRole ms pid lead.user_id ProjectRole.MEMBER) = 0 := by
  unfold leadCount setRole
  rw [List.countP_map, List.countP_eq_zero]
  intro m hm hpred
  simp only [Function.comp] at hpred
  by_cases hk : memberKey pid lead.user_id m
  · rw [if_pos hk] at hpred
    simp at hpred
  · rw [if_neg hk] at hpred
    have hm_eq := lead_unique ms pid lead hfl hle m hm hpred
    apply hk
    have hp2 : m.project_id = pid ∧ m.role = ProjectRole.PROJECT_LEAD := by
      simpa using hpred
    have huser : m.user_id = lead.user_id := by rw [hm_eq]
    simp [memberKey, hp2.1, huser]

/-- Helper: promoting a key bounds the project's lead count by the key count
plus the previous lead count. -/
theorem leadCount_promote_le (ms : List ProjectMember) (pid : ProjectId) (uid : UserId) :
    leadCount pid (setRole ms pid uid ProjectRole.PROJECT_LEAD)
      ≤ keyCount pid uid ms + leadCount pid ms := by
  unfold leadCount keyCount setRole
  rw [List.countP_map]
  apply le_trans ?_ (countP_or_le (memberKey pid uid)
    (fun m => m.project_id == pid && m.role == ProjectRole.PROJECT_LEAD) ms)
  apply List.countP_mono_left
  intro m hm hpm
  simp only [Function.comp] at hpm
  by_cases hk : memberKey pid uid m
  · simp [hk]
  · rw [if_neg hk] at hpm
    simp [hk, hpm]

/-- Helper: promoting the unique lead's own key keeps the lead count within
the key count. -/
theorem leadCount_promote_self_le (ms : List ProjectMember) (pid : ProjectId)
    (lead : ProjectMember) (hfl : firstLead ms pid = some lead)
    (hle : leadCount pid ms ≤ 1) :
    leadCount pid (setRole ms pid lead.user_id ProjectRole.PROJECT_LEAD)
      ≤ keyCount pid lead.user_id ms := by
  unfold leadCount keyCount setRole
  rw [List.countP_map]
  apply List.countP_mono_left
  intro m hm hpm
  simp only [Function.comp] at hpm
  by_cases hk : memberKey pid lead.user_id m
  · exact hk
  · rw [if_neg hk] at hpm
    have hm_eq := lead_unique ms pid lead hfl hle m hm hpm
    exfalso
    apply hk
    have hp2 : m.project_id = pid ∧ m.role = ProjectRole.PROJECT_LEAD := by
      simpa using hpm
    have huser : m.user_id = lead.user_id := by rw [hm_eq]
    simp [memberKey, hp2.1, huser]

/-- Helper: appending a fresh row preserves key uniqueness and the
at-most-one-lead bound, provided a lead row is only appended to a project
that momentarily has none. -/
theorem append_row_preserves (ms1 : List ProjectMember) (pid : ProjectId) (uid : UserId)
    (r : ProjectRole) (hwf1 : MembersWF ms1) (hkz : keyCount pid uid ms1 = 0)
    (hlead : ∀ pid2, leadCount pid2 ms1 ≤ 1)
    (hcase : r = ProjectRole.PROJECT_LEAD → leadCount pid ms1 = 0) :
    MembersWF (ms1 ++ [⟨uid, pid, r⟩]) ∧ AtMostOneLead (ms1 ++ [⟨uid, pid, r⟩]) := by
  constructor
  · intro pid2 uid2
    have hb := hwf1 pid2 uid2
    unfold keyCount at hkz hb ⊢
    rw [List.countP_append, List.countP_singleton]
    by_cases hk : memberKey pid2 uid2 ⟨uid, pid, r⟩
    · have hk2 : pid = pid2 ∧ uid = uid2 := by simpa [memberKey] using hk
      rw [if_pos hk]
      rw [← hk2.1, ← hk2.2]
      omega
    · rw [if_neg hk]
      omega
  · intro pid2
    unfold leadCount at hcase hlead ⊢
    rw [List.countP_append, List.countP_singleton]
    by_cases hp2 : pid = pid2
    · subst hp2
      by_cases hr : r = ProjectRole.PROJECT_LEAD
      · subst hr
        rw [if_pos (by simp)]
        have h0 := hcase rfl
        omega
      · rw [if_neg (by simp [hr])]
        have hb := hlead pid
        omega
    · rw [if_neg (by simp [hp2])]
      have hb := hlead pid2
      omega

/-- Helper: a successful add_member_to_project preserves key uniqueness and
the at-most-one-lead bound. -/
theorem add_member_preserves (ms ms' : List ProjectMember) (pid : ProjectId)
    (r : ProjectRole) (u : Option User) (ar : ProjectRole)
    (hwf : MembersWF ms) (hl : AtMostOneLead ms)
    (h : add_member_to_project ms pid r u ar = .ok ms') :
    MembersWF ms' ∧ AtMostOneLead ms' := by
  unfold add_member_to_project at h
  split at h
  · simp at h
  · split at h
    · simp at h
    · rename_i user
      by_cases hex : (get_project_member ms pid user.id).isSome
      · rw [if_pos hex] at h
        simp at h
      · rw [if_neg hex] at h
        have hkz : keyCount pid user.id ms = 0 :=
          keyCount_eq_zero_of_get_none ms pid user.id (Option.not_isSome_iff_eq_none.mp hex)
        simp only [Except.ok.injEq] at h
        split at h
        · rename_i hr
          have hr2 : r = ProjectRole.PROJECT_LEAD := by simpa using hr
          subst hr2
          split at h
          · rename_i lead hfl
            subst h
            unfold add_project_member
            apply append_row_preserves
            · intro pid2 uid2
              rw [keyCount_setRole]
              exact hwf pid2 uid2
            · rw [keyCount_setRole]
              exact hkz
            · intro pid2
              by_cases hp2 : pid2 = pid
              · subst hp2
                rw [leadCount_demote_zero ms pid2 lead hfl (hl pid2)]
                exact Nat.zero_le 1
              · rw [leadCount_setRole_other ms pid lead.user_id _ pid2 hp2]
                exact hl pid2
            · intro _
              exact leadCount_demote_zero ms pid lead hfl (hl pid)
          · rename_i hfl
            subst h
            unfold add_project_member
            apply append_row_preserves ms pid user.id _ hwf hkz hl
            intro _
            exact leadCount_eq_zero_of_firstLead_none ms pid hfl
        · rename_i hr
          subst h
          unfold add_project_member
          apply append_row_preserves ms pid user.id r hwf hkz hl
          intro hreq
          exact absurd (by simp [hreq]) hr

/-- Helper: a successful update_project_member_role preserves key uniqueness
and the at-most-one-lead bound. -/
theorem update_member_preserves (ms ms' : List ProjectMember) (pid : ProjectId)
    (uid : UserId) (nr : ProjectRole) (hwf : MembersWF ms) (hl : AtMostOneLead ms)
    (h : update_project_member_role ms pid uid nr = .ok ms') :
    MembersWF ms' ∧ AtMostOneLead ms' := by
  unfold update_project_member_role at h
  cases hg : get_project_member ms pid uid with
  | none =>
    rw [hg] at h
    simp at h
  | some mtu =>
    simp only [hg] at h
    split at h
    · simp at h
    · simp only [Except.ok.injEq] at h
      subst h
      obtain ⟨hproj, huser, hmem⟩ := get_project_member_some ms pid uid mtu hg
      rw [hproj, huser]
      unfold update_member_role
      simp only [hg]
      by_cases hnr : nr = ProjectRole.PROJECT_LEAD
      · subst hnr
        rw [if_pos (by rfl : (ProjectRole.PROJECT_LEAD == ProjectRole.PROJECT_LEAD) = true)]
        cases hfl : firstLead ms pid with
        | none =>
          simp only [hfl]
          constructor
          · intro pid2 uid2
            rw [keyCount_setRole]
            exact hwf pid2 uid2
          · intro pid2
            by_cases hp2 : pid2 = pid
            · subst hp2
              have hb := leadCount_promote_le ms pid2 uid
              have h0 := leadCount_eq_zero_of_firstLead_none ms pid2 hfl
              have hk1 := hwf pid2 uid
              omega
            · rw [leadCount_setRole_other ms pid uid _ pid2 hp2]
              exact hl pid2
        | some lead =>
          simp only [hfl]
          by_cases hlu : lead.user_id ≠ uid
          · rw [if_pos hlu]
            constructor
            · intro pid2 uid2
              rw [keyCount_setRole, keyCount_setRole]
              exact hwf pid2 uid2
            · intro pid2
              by_cases hp2 : pid2 = pid
              · subst hp2
                have hb := leadCount_promote_le
                  (setRole ms pid2 lead.user_id ProjectRole.MEMBER) pid2 uid
                have h0 := leadCount_demote_zero ms pid2 lead hfl (hl pid2)
                have hk1 := keyCount_setRole ms pid2 lead.user_id
                  ProjectRole.MEMBER pid2 uid
                have hk2 := hwf pid2 uid
                omega
              · rw [leadCount_setRole_other _ pid uid _ pid2 hp2,
                  leadCount_setRole_other ms pid lead.user_id _ pid2 hp2]
                exact hl pid2
          · rw [if_neg hlu]
            have hlu2 : lead.user_id = uid := not_not.mp hlu
            constructor
            · intro pid2 uid2
              rw [keyCount_setRole]
              exact hwf pid2 uid2
            · intro pid2
              by_cases hp2 : pid2 = pid
              · subst hp2
                have hb := leadCount_promote_self_le ms pid2 lead hfl (hl pid2)
                have hk1 := hwf pid2 lead.user_id
                rw [← hlu2]
                omega
              · rw [leadCount_setRole_other ms pid uid _ pid2 hp2]
                exact hl pid2
      · rw [if_neg (by simp [hnr])]
        constructor
        · intro pid2 uid2
          rw [keyCount_setRole]
          exact hwf pid2 uid2
        · intro pid2
          exact le_trans (leadCount_setRole_le ms pid uid nr hnr pid2) (hl pid2)

/-- Helper: a successful remove_member_from_project preserves key uniqueness
and the at-most-one-lead bound. -/
theorem remove_member_preserves (ms ms' : List ProjectMember) (pid : ProjectId)
    (uid : UserId) (hwf : MembersWF ms) (hl : AtMostOneLead ms)
    (h : remove_member_from_project ms pid uid = .ok ms') :
    MembersWF ms' ∧ AtMostOneLead ms' := by
  unfold remove_member_from_project at h
  cases hg : get_project_member ms pid uid with
  | none =>
    rw [hg] at h
    simp at h
  | some mtr =>
    simp only [hg] at h
    split at h
    · simp at h
    · simp only [Except.ok.injEq] at h
      subst h
      obtain ⟨hproj, huser, _⟩ := get_project_member_some ms pid uid mtr hg
      rw [hproj, huser]
      unfold remove_project_member
      simp only [hg]
      constructor
      · intro pid2 uid2
        exact le_trans (countP_eraseP_le (memberKey pid2 uid2) (memberKey pid uid) ms)
          (hwf pid2 uid2)
      · intro pid2
        exact le_trans (countP_eraseP_le _ (memberKey pid uid) ms) (hl pid2)

/-- C1 amended: key uniqueness together with at-most-one-PROJECT_LEAD per
project is an invariant of every exposed membership operation. The
exactly-one form of the claim fails: updating the sole lead's role to ADMIN
is accepted and leaves a project with members but no lead (see the
counterexample). -/
theorem C1_amended : ∀ ms ms' : List ProjectMember,
    MembersWF ms ∧ AtMostOneLead ms → MemberStep ms ms' →
    MembersWF ms' ∧ AtMostOneLead ms' := by
  rintro ms ms' ⟨hwf, hl⟩ hstep
  cases hstep with
  | add pid r u ar h => exact add_member_preserves ms ms' pid r u ar hwf hl h
  | update pid uid r h => exact update_member_preserves ms ms' pid uid r hwf hl h
  | remove pid uid h => exact remove_member_preserves ms ms' pid uid hwf hl h

/-- Witness data: an issue in PROPOSED state. -/
def wIssueProposed : Issue :=
  ⟨1, "t", none, IssueStatus.PROPOSED, IssuePriority.MEDIUM, IssueType.TASK, 7, 5,
    none, none, none, none, none⟩

/-- Witness data: an unassigned issue with no pending request. -/
def wIssueFree : Issue :=
  ⟨1, "t", none, IssueStatus.TO_DO, IssuePriority.MEDIUM, IssueType.TASK, 7, 5,
    none, none, none, none, none⟩

/-- Witness data: an unassigned issue with a pending request from user 9. -/
def wIssueReq : Issue :=
  ⟨1, "t", none, IssueStatus.TO_DO, IssuePriority.MEDIUM, IssueType.TASK, 7, 5,
    none, some 9, none, none, none⟩

/-- Witness data: a STORY creation request for project 3. -/
def wCreateStory : IssueCreate :=
  ⟨"t", none, 3, IssueStatus.TO_DO, IssuePriority.MEDIUM, IssueType.STORY,
    none, none, none, none⟩

/-- Witness for C1_amended: the invariant holds of the one-lead store, the
ADMIN-promotion step is taken, and the invariant still holds afterwards. -/
theorem C1_amended_witness :
    (MembersWF [⟨10, 1, ProjectRole.PROJECT_LEAD⟩]
      ∧ AtMostOneLead [⟨10, 1, ProjectRole.PROJECT_LEAD⟩])
    ∧ MemberStep [⟨10, 1, ProjectRole.PROJECT_LEAD⟩] [⟨10, 1, ProjectRole.ADMIN⟩]
    ∧ (MembersWF [⟨10, 1, ProjectRole.ADMIN⟩]
      ∧ AtMostOneLead [⟨10, 1, ProjectRole.ADMIN⟩]) := by
  have hwf1 : MembersWF [⟨10, 1, ProjectRole.PROJECT_LEAD⟩] := by
    intro pid uid
    exact List.countP_le_length _
  have hl1 : AtMostOneLead [⟨10, 1, ProjectRole.PROJECT_LEAD⟩] := by
    intro pid
    exact List.countP_le_length _
  have hstep : MemberStep [⟨10, 1, ProjectRole.PROJECT_LEAD⟩] [⟨10, 1, ProjectRole.ADMIN⟩] :=
    MemberStep.update 1 10 ProjectRole.ADMIN rfl
  exact ⟨⟨hwf1, hl1⟩, hstep, C1_amended _ _ ⟨hwf1, hl1⟩ hstep⟩

/-- Witness for C3_amended: a concrete request_assignment success yields a
mutually exclusive issue. -/
theorem C3_amended_witness :
    request_assignment [wIssueFree] 1 ⟨9, false⟩
      = .ok (request_issue [wIssueFree] wIssueFree ⟨9, false⟩)
    ∧ MutexIssue (request_issue [wIssueFree] wIssueFree ⟨9, false⟩).2 :=
  ⟨rfl, (C3_amended [wIssueFree] 1 ⟨9, false⟩ [] wCreateStory 100).1 _ rfl⟩

/-- Witness for C4_amended: removing or demoting the sole lead of a
two-member project is rejected with the conflict errors. -/
theorem C4_amended_witness :
    get_project_member [⟨10, 1, ProjectRole.PROJECT_LEAD⟩, ⟨11, 1, ProjectRole.MEMBER⟩] 1 10
      = some ⟨10, 1, ProjectRole.PROJECT_LEAD⟩
    ∧ remove_member_from_project
        [⟨10, 1, ProjectRole.PROJECT_LEAD⟩, ⟨11, 1, ProjectRole.MEMBER⟩] 1 10
      = .error ⟨400, "Cannot remove the last Project Lead from a project. Assign a new lead first."⟩
    ∧ update_project_member_role
        [⟨10, 1, ProjectRole.PROJECT_LEAD⟩, ⟨11, 1, ProjectRole.MEMBER⟩] 1 10 ProjectRole.MEMBER
      = .error ⟨400, "Cannot demote the last Project Lead. Assign a new lead first."⟩ := by
  have h := C4_amended [⟨10, 1, ProjectRole.PROJECT_LEAD⟩, ⟨11, 1, ProjectRole.MEMBER⟩]
    1 10 ⟨10, 1, ProjectRole.PROJECT_LEAD⟩ rfl
  obtain ⟨he1, he2⟩ := h.1 ⟨rfl, by decide⟩
  exact ⟨rfl, he1, he2⟩

/-- Witness for C6_creation_policy: a MEMBER submitting a STORY is rejected
with Forbidden. -/
theorem C6_witness :
    get_project_member [⟨5, 3, ProjectRole.MEMBER⟩] 3 5 = some ⟨5, 3, ProjectRole.MEMBER⟩
    ∧ check_admin_assignment ⟨5, false⟩ none = .ok ()
    ∧ create_new_issue [] [⟨5, 3, ProjectRole.MEMBER⟩] wCreateStory ⟨5, false⟩ 100
      = .error ⟨403, "Members can only propose Tasks or Bugs."⟩ := by
  have h := (C6_creation_policy [] [⟨5, 3, ProjectRole.MEMBER⟩] wCreateStory ⟨5, false⟩
    ⟨5, 3, ProjectRole.MEMBER⟩ 100 rfl rfl).1 rfl
  exact ⟨rfl, rfl, h.1 (Or.inl rfl)⟩

/-- Witness for C7_proposal_workflow: approving a PROPOSED issue moves it to
TO_DO and a second approval is rejected. -/
theorem C7_witness :
    get_issue [wIssueProposed] 1 = some wIssueProposed
    ∧ (∃ out, approve_proposal [wIssueProposed] 1 = .ok out
        ∧ out.2 = { wIssueProposed with status := IssueStatus.TO_DO }
        ∧ get_issue out.1 1 = some { wIssueProposed with status := IssueStatus.TO_DO }
        ∧ approve_proposal out.1 1 = .error ⟨400, "Issue is not in proposed state"⟩) :=
  ⟨rfl, (C7_proposal_workflow [wIssueProposed] 1 wIssueProposed rfl).2.1 rfl⟩

/-- Witness for C8_amended: approving a pending request promotes the
requester and clears the request. -/
theorem C8_witness :
    get_issue [wIssueReq] 1 = some wIssueReq
    ∧ (∃ out, approve_assignment [wIssueReq] 1 = .ok out
        ∧ out.2 = { wIssueReq with assignee_id := some 9, assignee_request_id := none }) :=
  ⟨rfl, (C8_amended [wIssueReq] 1 wIssueReq ⟨7, false⟩ rfl).2.2.2.2.1 9 rfl⟩

/-- Witness for C9_progress: an issue-less COMPLETED phase reports 100. -/
theorem C9_witness :
    (([] : List Issue).filter
      (fun i => i.phase_id == some (⟨3, 1, 1, PhaseStatus.COMPLETED⟩ : Phase).id)).length = 0
    ∧ calculate_phase_progress ⟨3, 1, 1, PhaseStatus.COMPLETED⟩ [] = 100 := by
  have h := (C9_progress ⟨3, 1, 1, PhaseStatus.COMPLETED⟩ [] []).1 rfl
  simpa using h

/-- Witness for C10_no_membership_check: a superuser with no membership
anywhere successfully requests assignment. -/
theorem C10_witness :
    get_issue [wIssueFree] 1 = some wIssueFree
    ∧ wIssueFree.assignee_id = none
    ∧ wIssueFree.assignee_request_id = none
    ∧ request_assignment [wIssueFree] 1 ⟨42, true⟩
        = .ok (request_issue [wIssueFree] wIssueFree ⟨42, true⟩)
    ∧ (request_issue [wIssueFree] wIssueFree ⟨42, true⟩).2.assignee_request_id = some 42 := by
  have h := C10_no_membership_check [wIssueFree] 1 wIssueFree ⟨42, true⟩ rfl rfl rfl
  exact ⟨rfl, rfl, rfl, h.1, h.2⟩

end ProjectFlow
